import Mathlib

/-!
Verification of the testmozart workflow-orchestration core.

The development shallowly embeds, over `List Char`:

* the natural-language scenario parser `generate_test_scenarios`
  (src/tools/test_design_tools.py), including the exact leftmost-match
  semantics of its four regular expressions;
* the state-initialization callback `initialize_state` together with a
  model of Python's `json.loads` (src/agents/coordinator.py);
* the bounded retry loop (`refinement_loop`, `max_iterations = 3`) and the
  final reporting stage, whose drivers are modelled from the specification
  because the `LoopAgent` driver, the `exit_loop` tool
  (tools/workflow_tools.py) and the two LLM instruction texts are not
  executable code in the repository snapshot.

All definitions are executable; concrete runs are settled by `decide`/`rfl`.
-/

namespace Testmozart

/-! ## Python string primitives on `List Char`

Python's `\s` (ASCII range), `str.strip`, `str.lower` and substring tests,
as used by the parser and the coordinator. All source inputs of interest
are ASCII, so ASCII case folding coincides with Python's. -/

/-- Python `\s` / `str.strip` whitespace, ASCII range. -/
def isWs (c : Char) : Bool :=
  c = ' ' || c = '\t' || c = '\n' || c = '\r' || c = '\x0b' || c = '\x0c'

/-- Drop leading whitespace (Python `lstrip`, and the deterministic part of
a greedy `\s*`). -/
def dropWs (s : List Char) : List Char := s.dropWhile isWs

/-- Python `str.strip`. -/
def strip (s : List Char) : List Char :=
  ((s.dropWhile isWs).reverse.dropWhile isWs).reverse

/-- ASCII lower-casing, as Python's `re.IGNORECASE` folds ASCII letters. -/
def lc (c : Char) : Char :=
  if 'A' ≤ c && c ≤ 'Z' then Char.ofNat (c.toNat + 32) else c

/-- `startsWithL pat s`: `s` starts with `pat` (case-sensitive). -/
def startsWithL : List Char → List Char → Bool
  | [], _ => true
  | _ :: _, [] => false
  | p :: ps, c :: cs => (c = p) && startsWithL ps cs

/-- `startsCI pat s`: `s` starts with `pat` case-insensitively; `pat` is
given lower-cased. -/
def startsCI : List Char → List Char → Bool
  | [], _ => true
  | _ :: _, [] => false
  | p :: ps, c :: cs => (lc c = p) && startsCI ps cs

/-- `containsSub pat s`: `pat` occurs in `s` as a contiguous substring
(case-sensitive), i.e. Python `pat in s`. -/
def containsSub (pat : List Char) : List Char → Bool
  | [] => startsWithL pat []
  | c :: t => startsWithL pat (c :: t) || containsSub pat t

/-! ## Scenario parser (src/tools/test_design_tools.py)

`generate_test_scenarios` splits its input into blocks and extracts a
description / expected-outcome pair from each block with two regex
families. The four patterns are embedded with Python `re` leftmost-match
semantics, specialised to these patterns (greedy `\s*` before a
non-whitespace literal is deterministic; the lazy groups stop at the first
matching terminator position). -/

/-- Pattern literal (lower-cased) for the primary description label. -/
def descLabel : List Char := "description:".toList

/-- Pattern literal (lower-cased) for the legacy scenario label. -/
def scenLabel : List Char := "scenario:".toList

/-- Pattern literal (lower-cased) for `Inputs:` inside the terminator. -/
def inputsLabel : List Char := "inputs:".toList

/-- Pattern literal (lower-cased) for `Expected Outcome:`. -/
def expOutcomeColon : List Char := "expected outcome:".toList

/-- Pattern literal (lower-cased) for the bare `Expected Outcome`
alternative of the outcome regex (note: no colon in the source pattern). -/
def expOutcomeBare : List Char := "expected outcome".toList

/-- Pattern literal (lower-cased) for `EXPECTED:`. -/
def expColon : List Char := "expected:".toList

/-- Python `text.split('---')`: split on the literal delimiter, keeping
empty pieces, leftmost non-overlapping occurrences first. -/
def splitDashes : List Char → List (List Char)
  | [] => [[]]
  | '-' :: '-' :: '-' :: t => [] :: splitDashes t
  | c :: t =>
    match splitDashes t with
    | [] => [[c]]
    | h :: r => (c :: h) :: r

/-- Length of a match of `\*\s*Scenario \d+:` (case-sensitive) at the head
of `s`, if any: a literal `*`, whitespace, `Scenario `, one or more digits,
`:`. -/
def markerLen (s : List Char) : Option Nat :=
  match s with
  | '*' :: t =>
    let w := t.takeWhile isWs
    let r := t.dropWhile isWs
    if startsWithL ("Scenario ".toList) r then
      let r2 := r.drop 9
      let ds := r2.takeWhile Char.isDigit
      if ds.isEmpty then none
      else if startsWithL ([':']) (r2.drop ds.length) then
        some (1 + w.length + 9 + ds.length + 1)
      else none
    else none
  | _ => none

/-- Worker for `resplit`, structurally recursive on a fuel argument so the
definition evaluates by reduction. Every step consumes at least one input
character, so the fuel supplied by `resplit` can never run out and the
zero-fuel branch is unreachable. -/
def resplitF : Nat → List Char → List (List Char)
  | 0, s => [s]
  | Nat.succ fuel, s =>
    match s with
    | [] => [[]]
    | c :: t =>
      match markerLen (c :: t) with
      | some n => [] :: resplitF fuel (t.drop (n - 1))
      | none =>
        match resplitF fuel t with
        | [] => [[c]]
        | h :: r => (c :: h) :: r

/-- Python `re.split(r'\*\s*Scenario \d+:', s)`: pieces of `s` between
leftmost non-overlapping matches of the marker. -/
def resplit (s : List Char) : List (List Char) := resplitF (s.length + 1) s

/-- Terminator of the lazy group of the primary description pattern
`(?:\n\s*-\s*(?:Inputs|Expected Outcome|EXPECTED):|$)`, tested at a suffix
position: either a newline, whitespace, a dash, whitespace and one of the
three labels with a colon; or `$`, which without `re.MULTILINE` matches at
the end of the input or just before a final newline. -/
def termV2 (r : List Char) : Bool :=
  (match r with
   | '\n' :: t =>
     match dropWs t with
     | '-' :: v =>
       let w := dropWs v
       startsCI inputsLabel w || startsCI expOutcomeColon w || startsCI expColon w
     | _ => false
   | _ => false)
  || r.isEmpty || r = ['\n']

/-- The lazy capture `(.*?)` of the description pattern: the shortest
prefix whose following suffix satisfies `termV2` (guaranteed to exist,
since `$` matches at the end). -/
def grabV2 : List Char → List Char
  | [] => []
  | c :: t => if termV2 (c :: t) then [] else c :: grabV2 t

/-- `re.search` of the primary description pattern
`(?:Description|SCENARIO):\s*(.*?)(?:\n\s*-\s*(?:…):|$)` with
`re.DOTALL | re.IGNORECASE`: the group-1 capture at the leftmost matching
position, if any. The greedy `\s*` after the label never backtracks
because the terminator always eventually matches. -/
def descV2 : List Char → Option (List Char)
  | [] => none
  | c :: t =>
    if startsCI descLabel (c :: t) then some (grabV2 (dropWs ((c :: t).drop 12)))
    else if startsCI scenLabel (c :: t) then some (grabV2 (dropWs ((c :: t).drop 9)))
    else descV2 t

/-- `re.search` of the outcome pattern `Expected Outcome|EXPECTED:\s*(.*)`
with `re.DOTALL | re.IGNORECASE`. The alternation is at the top level, so
the bare literal `Expected Outcome` is a complete match whose group 1 is
`None` — modelled as `some none`. A match of the second alternative yields
`some (some capture)`. -/
def outV2 : List Char → Option (Option (List Char))
  | [] => none
  | c :: t =>
    if startsCI expOutcomeBare (c :: t) then some none
    else if startsCI expColon (c :: t) then some (some (dropWs ((c :: t).drop 9)))
    else outV2 t

/-- The lazy capture `(.+?)` (at least one character) of the legacy
description pattern, scanning for the `\s*EXPECTED:` continuation. -/
def grabV1 (acc : List Char) (r : List Char) : Option (List Char) :=
  if startsCI expColon (dropWs r) then some acc
  else
    match r with
    | [] => none
    | c :: t => grabV1 (acc ++ [c]) t

/-- Body of the legacy description pattern after `SCENARIO:`:
`\s*(.+?)\s*EXPECTED:`. The greedy `\s*` first consumes all whitespace; if
the lazy scan then fails, it backtracks, which can only succeed when
`EXPECTED:` directly follows the whitespace run, making the capture a
single whitespace character (stripped to nothing downstream). -/
def descV1core (afterColon : List Char) : Option (List Char) :=
  let w := afterColon.takeWhile isWs
  let rest := afterColon.dropWhile isWs
  match rest with
  | [] => none
  | c :: t =>
    match grabV1 ([c]) t with
    | some g => some g
    | none =>
      match w.reverse with
      | [] => none
      | cw :: _ => if startsCI expColon rest then some ([cw]) else none

/-- `re.search` of the legacy description pattern
`SCENARIO:\s*(.+?)\s*EXPECTED:` (DOTALL, IGNORECASE): tries every
occurrence of the label left to right. -/
def descV1 : List Char → Option (List Char)
  | [] => none
  | c :: t =>
    if startsCI scenLabel (c :: t) then
      match descV1core ((c :: t).drop 9) with
      | some g => some g
      | none => descV1 t
    else descV1 t

/-- `re.search` of the legacy outcome pattern `EXPECTED:\s*(.+)` (DOTALL,
IGNORECASE). `(.+)` needs one character, so a label at the very end of the
block fails and the search continues; if only whitespace follows, the
greedy `\s*` backtracks by one character. -/
def outV1 : List Char → Option (List Char)
  | [] => none
  | c :: t =>
    if startsCI expColon (c :: t) then
      let a := (c :: t).drop 9
      match dropWs a with
      | [] =>
        match a.reverse with
        | [] => outV1 t
        | cw :: _ => some ([cw])
      | r => some r
    else outV1 t

/-- A validated scenario record, the `model_dump` of the Pydantic
`TestScenario` model. -/
structure TestScenario where
  description : List Char
  expected_outcome : List Char
deriving DecidableEq, Repr

/-- The two ways `generate_test_scenarios` can raise: the final
`ValueError` (the spec's ParseError) when no scenario was collected, and
the `AttributeError` from `None.strip()` when the outcome regex matched
via its bare `Expected Outcome` alternative. -/
inductive PyErr where
  | parseError
  | attributeError
deriving DecidableEq, Repr

/-- Per-block extraction: try the primary pattern pair; if both matched,
use its captures (calling `.strip()` on a `None` group raises); otherwise
fall back to the legacy pair. A block contributes a scenario iff both
stripped fields are non-empty (`if description and expected_outcome`; the
Pydantic validation cannot fail on `str` fields and is omitted). -/
def blockExtract (b : List Char) : Except PyErr (Option TestScenario) :=
  match descV2 b, outV2 b with
  | some d, some og =>
    match og with
    | none => Except.error PyErr.attributeError
    | some g =>
      let de := strip d
      let ex := strip g
      if de ≠ [] ∧ ex ≠ [] then Except.ok (some ⟨de, ex⟩) else Except.ok none
  | _, _ =>
    match descV1 b, outV1 b with
    | some d, some g =>
      let de := strip d
      let ex := strip g
      if de ≠ [] ∧ ex ≠ [] then Except.ok (some ⟨de, ex⟩) else Except.ok none
    | _, _ => Except.ok none

/-- Block decomposition: split the stripped input on `'---'`; if that
yields fewer than two pieces, re-split the original input on the
`\*\s*Scenario \d+:` marker. -/
def scenario_blocks (t : List Char) : List (List Char) :=
  let b0 := splitDashes (strip t)
  if b0.length < 2 then resplit t else b0

/-- The block loop: blocks whose stripped text is empty are skipped, an
`AttributeError` aborts the run, and validated scenarios are collected in
order. -/
def processBlocks : List (List Char) → Except PyErr (List TestScenario)
  | [] => Except.ok []
  | b :: rest =>
    if strip b = [] then processBlocks rest
    else
      match blockExtract b with
      | Except.error e => Except.error e
      | Except.ok none => processBlocks rest
      | Except.ok (some sc) =>
        match processBlocks rest with
        | Except.error e => Except.error e
        | Except.ok r => Except.ok (sc :: r)

/-- `generate_test_scenarios` (src/tools/test_design_tools.py): parse the
natural-language text into validated scenarios; raise `ValueError`
(ParseError) when none were collected. -/
def generate_test_scenarios (t : List Char) : Except PyErr (List TestScenario) :=
  match processBlocks (scenario_blocks t) with
  | Except.error e => Except.error e
  | Except.ok l => if l = [] then Except.error PyErr.parseError else Except.ok l

/-! ## A model of Python `json.loads` and the shared state
(src/agents/coordinator.py)

`initialize_state` attempts `json.loads` on the raw user text and branches
on whether the result is a dict containing `'source_code'`. The `json`
module is standard-library code outside this repository; it is modelled by
a recursive-descent parser for the grammar `json.loads` accepts by default
(JSON values plus `NaN`, `Infinity`, `-Infinity`; strict strings). Number
lexemes are kept as text, since no claim inspects numeric values. Surrogate
`\uXXXX` pairs are not combined; no claim depends on them. -/

/-- A Python value decoded from JSON. Objects keep their members in source
order; lookups take the last duplicate, as a Python dict would. -/
inductive PyJson where
  | null
  | bool (b : Bool)
  | num (lexeme : List Char)
  | str (s : List Char)
  | arr (xs : List PyJson)
  | obj (fields : List (List Char × PyJson))

instance : Inhabited PyJson := ⟨PyJson.null⟩

/-- JSON whitespace accepted between tokens by `json.loads`. -/
def isJWs (c : Char) : Bool := c = ' ' || c = '\t' || c = '\n' || c = '\r'

/-- Skip JSON whitespace. -/
def skipJWs (s : List Char) : List Char := s.dropWhile isJWs

/-- Value of a hexadecimal digit. -/
def hexVal (c : Char) : Option Nat :=
  if '0' ≤ c && c ≤ '9' then some (c.toNat - 48)
  else if 'a' ≤ c && c ≤ 'f' then some (c.toNat - 87)
  else if 'A' ≤ c && c ≤ 'F' then some (c.toNat - 55)
  else none

/-- Single-character JSON string escapes. -/
def escChar (c : Char) : Option Char :=
  if c = '"' then some '"'
  else if c = '\\' then some '\\'
  else if c = '/' then some '/'
  else if c = 'b' then some '\x08'
  else if c = 'f' then some '\x0c'
  else if c = 'n' then some '\n'
  else if c = 'r' then some '\r'
  else if c = 't' then some '\t'
  else none

/-- Parse the body of a JSON string (the opening quote already consumed):
content and remainder, or `none` on an invalid escape, a raw control
character, or a missing closing quote. -/
def parseJStr : List Char → Option (List Char × List Char)
  | [] => none
  | c :: t =>
    if c = '"' then some ([], t)
    else if c = '\\' then
      match t with
      | [] => none
      | e :: t2 =>
        if e = 'u' then
          match t2 with
          | h1 :: h2 :: h3 :: h4 :: t3 =>
            match hexVal h1, hexVal h2, hexVal h3, hexVal h4 with
            | some a, some b, some c3, some d =>
              (parseJStr t3).map
                (fun p => (Char.ofNat (((a * 16 + b) * 16 + c3) * 16 + d) :: p.1, p.2))
            | _, _, _, _ => none
          | _ => none
        else
          match escChar e with
          | some ch => (parseJStr t2).map (fun p => (ch :: p.1, p.2))
          | none => none
    else if c.toNat < 32 then none
    else (parseJStr t).map (fun p => (c :: p.1, p.2))

/-- Parse a JSON number lexeme `-?(0|[1-9][0-9]*)(\.[0-9]+)?([eE][+-]?[0-9]+)?`. -/
def parseNum (s : List Char) : Option (List Char × List Char) :=
  let (sign, s1) := match s with | '-' :: t => (['-'], t) | _ => (([] : List Char), s)
  match s1 with
  | [] => none
  | c :: t =>
    if c = '0' || c.isDigit && !(c = '0') then
      let (ip, r1) :=
        if c = '0' then (['0'], t)
        else (c :: t.takeWhile Char.isDigit, t.dropWhile Char.isDigit)
      let (fp, r2) :=
        match r1 with
        | '.' :: t2 =>
          let ds := t2.takeWhile Char.isDigit
          if ds.isEmpty then (none, r1)
          else (some ('.' :: ds), t2.dropWhile Char.isDigit)
        | _ => (none, r1)
      match fp, r2 with
      | none, '.' :: _ => none
      | _, _ =>
        let (ep, r3) :=
          match r2 with
          | e :: t3 =>
            if e = 'e' || e = 'E' then
              let (sg, t4) :=
                match t3 with
                | '+' :: t5 => (['+'], t5)
                | '-' :: t5 => (['-'], t5)
                | _ => (([] : List Char), t3)
              let ds := t4.takeWhile Char.isDigit
              if ds.isEmpty then (none, r2)
              else (some (e :: sg ++ ds), t4.dropWhile Char.isDigit)
            else (none, r2)
          | _ => (none, r2)
        match ep, r3 with
        | none, e :: _ =>
          if e = 'e' || e = 'E' then none
          else some (sign ++ ip ++ fp.getD [] ++ [], r3) |>.map
            (fun p => (p.1 ++ (ep.getD []), p.2))
        | _, _ => some (sign ++ ip ++ fp.getD [] ++ ep.getD [], r3)
    else none

mutual

/-- Parse one JSON value (fuelled; `json_loads` supplies ample fuel). -/
def parseVal : Nat → List Char → Option (PyJson × List Char)
  | 0, _ => none
  | Nat.succ fuel, s0 =>
    let s := skipJWs s0
    if startsWithL ("null".toList) s then some (PyJson.null, s.drop 4)
    else if startsWithL ("true".toList) s then some (PyJson.bool true, s.drop 4)
    else if startsWithL ("false".toList) s then some (PyJson.bool false, s.drop 5)
    else if startsWithL ("NaN".toList) s then some (PyJson.num ("NaN".toList), s.drop 3)
    else if startsWithL ("Infinity".toList) s then
      some (PyJson.num ("Infinity".toList), s.drop 8)
    else if startsWithL ("-Infinity".toList) s then
      some (PyJson.num ("-Infinity".toList), s.drop 9)
    else
      match s with
      | '"' :: t => (parseJStr t).map (fun p => (PyJson.str p.1, p.2))
      | '[' :: t =>
        let t1 := skipJWs t
        match t1 with
        | ']' :: r => some (PyJson.arr [], r)
        | _ => (parseElems fuel t1 []).map (fun p => (PyJson.arr p.1, p.2))
      | '{' :: t =>
        let t1 := skipJWs t
        match t1 with
        | '}' :: r => some (PyJson.obj [], r)
        | _ => (parseMembers fuel t1 []).map (fun p => (PyJson.obj p.1, p.2))
      | _ => (parseNum s).map (fun p => (PyJson.num p.1, p.2))

/-- Parse the elements of a non-empty JSON array, accumulating in order. -/
def parseElems : Nat → List Char → List PyJson → Option (List PyJson × List Char)
  | 0, _, _ => none
  | Nat.succ fuel, s, acc =>
    match parseVal fuel s with
    | none => none
    | some (v, r) =>
      match skipJWs r with
      | ',' :: r2 => parseElems fuel (skipJWs r2) (acc ++ [v])
      | ']' :: r2 => some (acc ++ [v], r2)
      | _ => none

/-- Parse the members of a non-empty JSON object, accumulating in order. -/
def parseMembers :
    Nat → List Char → List (List Char × PyJson) →
    Option (List (List Char × PyJson) × List Char)
  | 0, _, _ => none
  | Nat.succ fuel, s, acc =>
    match s with
    | '"' :: t =>
      match parseJStr t with
      | none => none
      | some (k, r) =>
        match skipJWs r with
        | ':' :: r2 =>
          match parseVal fuel (skipJWs r2) with
          | none => none
          | some (v, r3) =>
            match skipJWs r3 with
            | ',' :: r4 => parseMembers fuel (skipJWs r4) (acc ++ [(k, v)])
            | '}' :: r4 => some (acc ++ [(k, v)], r4)
            | _ => none
        | _ => none
    | _ => none

end

/-- `json.loads`: parse one value, reject trailing content. The fuel
`2 * length + 8` dominates the recursion depth (every two fuel units
consume at least one input character). -/
def json_loads (s : List Char) : Option PyJson :=
  match parseVal (2 * s.length + 8) s with
  | some (v, r) => if (skipJWs r).isEmpty then some v else none
  | none => none

/-- Python dict lookup for an object decoded from JSON: the last duplicate
of a key wins. -/
def objGet (fs : List (List Char × PyJson)) (k : List Char) : Option PyJson :=
  match fs with
  | [] => none
  | (k0, v) :: rest =>
    match objGet rest k with
    | some v' => some v'
    | none => if k0 = k then some v else none

/-- `dict.get(k, default)`. -/
def objGetD (fs : List (List Char × PyJson)) (k : List Char) (d : PyJson) : PyJson :=
  match objGet fs k with
  | some v => v
  | none => d

/-- Does `raw` decode to a JSON object that contains a `'source_code'`
member — the condition for `initialize_state`'s structured branch? -/
def jsonObjWithSourceCode (raw : List Char) : Bool :=
  match json_loads raw with
  | some (PyJson.obj fs) => fs.any (fun p => p.1 = ("source_code".toList))
  | _ => false

/-! ## State initialization (src/agents/coordinator.py, `initialize_state`) -/

/-- The session state as seen right after initialization: each well-known
key either absent (`none`) or bound to a JSON-serializable value. -/
structure SharedState where
  source_code : Option PyJson := none
  language : Option PyJson := none
  initialization_error : Option (List Char) := none
  test_results : Option PyJson := none
  static_analysis_report : Option PyJson := none
  test_scenarios : Option PyJson := none
  generated_test_code : Option PyJson := none

/-- `initialize_state`: the `before_agent_callback` of the root agent. The
input models `user_content.parts[0].text`; `none` covers a missing
message/part and `some []` an empty text, both falsy in the guard. On the
guard's failure path the function records `initialization_error` and
returns early — without seeding the remaining keys. Otherwise it takes the
structured branch when the text decodes to a dict containing
`'source_code'` (reading `language` with default `'python'`), else the
raw-text branch, and finally seeds the four documented defaults. -/
def initialize_state (user_text : Option (List Char)) : SharedState :=
  match user_text with
  | none => { initialization_error := some ("No input content.".toList) }
  | some raw =>
    if raw = [] then { initialization_error := some ("No input content.".toList) }
    else
      let base : SharedState :=
        match json_loads raw with
        | some (PyJson.obj fs) =>
          if fs.any (fun p => p.1 = ("source_code".toList)) then
            { source_code := objGet fs ("source_code".toList)
              language := some (objGetD fs ("language".toList) (PyJson.str ("python".toList))) }
          else
            { source_code := some (PyJson.str raw)
              language := some (PyJson.str ("python".toList)) }
        | _ =>
          { source_code := some (PyJson.str raw)
            language := some (PyJson.str ("python".toList)) }
      { base with
        test_results := some (PyJson.obj [(("status".toList), PyJson.str ("NOT_RUN".toList))])
        static_analysis_report := some (PyJson.obj [])
        test_scenarios := some (PyJson.arr [])
        generated_test_code := some (PyJson.str []) }

/-! ## The bounded retry loop

Modelled from the spec: the `LoopAgent` driver and the `exit_loop` tool
(tools/workflow_tools.py) are not part of the source snapshot, and the
Debugger stage's contract is an LLM instruction. Following §4.4 of the
spec, each iteration runs Runner then Debugger against the current state;
the Debugger signals early exit, changing nothing, when it observes a
passing result, and otherwise rewrites the test code; the loop stops early
on that signal or after the configured ceiling. The ceiling
(`max_iterations=3`) and the Runner-then-Debugger order are taken from the
`refinement_loop` declaration in src/agents/coordinator.py. -/

/-- The `status` field of `test_results` as the loop observes it. -/
inductive RunStatus where
  | PASS
  | FAIL
  | NOT_RUN
deriving DecidableEq, Repr

/-- How the retry loop exited. -/
inductive LoopExit where
  | TERMINATED_EARLY
  | TERMINATED_BY_LIMIT
deriving DecidableEq, Repr

/-- The slice of the shared state the Runner/Debugger cycle touches. -/
structure RetrySt where
  generated_test_code : List Char
  test_results : RunStatus
deriving DecidableEq, Repr

/-- Runner stage: writes `test_results` for iteration `i`; the runner's
behaviour across iterations is a parameter. -/
def runnerStep (runner : Nat → RunStatus) (i : Nat) (st : RetrySt) : RetrySt :=
  { st with test_results := runner i }

/-- Debugger stage: on PASS it calls `exit_loop` and makes no code change
(the Bool is the escalation signal); on any other status it rewrites
`generated_test_code` by the parameter `debug`. -/
def debuggerStep (debug : Nat → RetrySt → List Char) (i : Nat) (st : RetrySt) :
    RetrySt × Bool :=
  if st.test_results = RunStatus.PASS then (st, true)
  else ({ st with generated_test_code := debug i st }, false)

/-- The loop driver: run Runner then Debugger, stop on the escalation
signal or when the remaining-iteration budget is exhausted. Returns the
number of iterations performed, the exit path, and the final state. -/
def retryLoopGo (runner : Nat → RunStatus) (debug : Nat → RetrySt → List Char) :
    Nat → Nat → RetrySt → Nat × LoopExit × RetrySt
  | i, 0, st => (i, LoopExit.TERMINATED_BY_LIMIT, st)
  | i, Nat.succ r, st =>
    let st1 := runnerStep runner i st
    let step := debuggerStep debug i st1
    if step.2 then (i + 1, LoopExit.TERMINATED_EARLY, step.1)
    else retryLoopGo runner debug (i + 1) r step.1

/-- The iteration ceiling of `refinement_loop` (src/agents/coordinator.py,
`max_iterations=3`). -/
def refinement_loop_max_iterations : Nat := 3

/-- One run of the `RefinementLoop` from the initial retry state. -/
def runRefinementLoop (runner : Nat → RunStatus) (debug : Nat → RetrySt → List Char)
    (st : RetrySt) : Nat × LoopExit × RetrySt :=
  retryLoopGo runner debug 0 refinement_loop_max_iterations st

/-! ## The Final Reporter

Modelled from the spec: `result_summarizer_agent` is an LLM instruction,
not executable code. Following its text and §4.5 of the spec, the reporter
rewrites each `from source_to_test import …` line of the final
`generated_test_code` to `from sample_code import …`, and emits the
rewritten code as a python block — together with the raw `test_results`
object as a json block exactly when the final status is not `"PASS"`. -/

/-- The sandbox import clause the reporter looks for. -/
def fromSrcImport : List Char := "from source_to_test import".toList

/-- The replacement import clause. -/
def fromSampleImport : List Char := "from sample_code import".toList

/-- The sandbox module name, whose disappearance the spec asserts. -/
def srcModName : List Char := "source_to_test".toList

/-- Rewrite one line: change a `from source_to_test import …` line into the
corresponding `from sample_code import …` line, leave any other line
unchanged. -/
def rewriteLine (l : List Char) : List Char :=
  if startsWithL fromSrcImport l then fromSampleImport ++ l.drop fromSrcImport.length
  else l

/-- Rewrite the import lines of the whole test code (given as lines). -/
def rewriteImportLines (ls : List (List Char)) : List (List Char) :=
  ls.map rewriteLine

/-- The reporter's terminal output: the python block (as lines), and the
json block holding the raw results object when present. -/
structure ReporterOutput where
  code_block : List (List Char)
  results_block : Option PyJson

/-- The `status` field of a `test_results` object, when it is a string. -/
def statusStr (tr : PyJson) : Option (List Char) :=
  match tr with
  | PyJson.obj fs =>
    match objGet fs ("status".toList) with
    | some (PyJson.str s) => some s
    | _ => none
  | _ => none

/-- `result_summarizer`: produce the terminal output from the final
`generated_test_code` (as lines) and the final `test_results` object. -/
def result_summarizer (generated_test_code : List (List Char)) (test_results : PyJson) :
    ReporterOutput :=
  let code := rewriteImportLines generated_test_code
  if statusStr test_results = some ("PASS".toList) then ⟨code, none⟩
  else ⟨code, some test_results⟩

/-! ## Concrete inputs from the spec's examples -/

/-- The input of the spec's scenario-parsing example. -/
def c5input : List Char :=
  ("SCENARIO: adds two positives\nEXPECTED: returns their sum\n---\nSCENARIO: handles zero\nEXPECTED: returns the other operand").toList

/-- A block in the documented bullet format, on which the outcome regex
matches via its bare alternative. -/
def c10input : List Char := ("Description: d\n- Expected Outcome: x").toList

/-- A second block in the documented bullet format. -/
def c4input : List Char := ("Description: a\n- Expected Outcome: b").toList

/-- The raw-code input of the spec's degraded-init example. -/
def c7raw : List Char := ("def f(x): return x+1").toList

/-- What the parser actually captures as the first description. -/
def c5desc1 : List Char := ("adds two positives\nEXPECTED: returns their sum").toList

/-- The first expected outcome. -/
def c5out1 : List Char := ("returns their sum").toList

/-- What the parser actually captures as the second description. -/
def c5desc2 : List Char := ("handles zero\nEXPECTED: returns the other operand").toList

/-- The second expected outcome. -/
def c5out2 : List Char := ("returns the other operand").toList

/-- A FAIL-shaped results object. -/
def trFail : PyJson := PyJson.obj [(("status").toList, PyJson.str (("FAIL").toList))]

/-- A PASS-shaped results object. -/
def trPass : PyJson := PyJson.obj [(("status").toList, PyJson.str (("PASS").toList))]

/-! ## General lemmas about the string primitives -/

/-- A pattern that starts a string occurs in it. -/
theorem contains_of_startsWith (pat s : List Char) (h : startsWithL pat s = true) :
    containsSub pat s = true := by
  cases s with
  | nil => simpa [containsSub] using h
  | cons c t => simp [containsSub, h]

/-- The empty pattern occurs everywhere. -/
theorem containsSub_nil (s : List Char) : containsSub [] s = true := by
  induction s with
  | nil => rfl
  | cons c t ih => simp [containsSub, startsWithL]

/-- `startsWithL` is transitive. -/
theorem startsWithL_trans (a b c : List Char) (h1 : startsWithL a b = true)
    (h2 : startsWithL b c = true) : startsWithL a c = true := by
  induction a generalizing b c with
  | nil => rfl
  | cons p ps ih =>
    cases b with
    | nil => simp [startsWithL] at h1
    | cons q qs =>
      cases c with
      | nil => simp [startsWithL] at h2
      | cons r rs =>
        simp only [startsWithL, Bool.and_eq_true, decide_eq_true_eq] at h1 h2 ⊢
        exact ⟨h2.1.trans h1.1, ih qs rs h1.2 h2.2⟩

/-- If a pattern occurs inside `pfx` (as a prefix of `pfx.drop k`), it
occurs in every string that starts with `pfx`. -/
theorem contains_of_startsWith_at (pat : List Char) :
    ∀ (k : Nat) (pfx s : List Char), startsWithL pat (pfx.drop k) = true →
      startsWithL pfx s = true → containsSub pat s = true := by
  intro k
  induction k with
  | zero =>
    intro pfx s hk hs
    exact contains_of_startsWith pat s (startsWithL_trans pat pfx s hk hs)
  | succ k ih =>
    intro pfx s hk hs
    cases pfx with
    | nil =>
      simp only [List.drop_nil] at hk
      cases pat with
      | nil => exact containsSub_nil s
      | cons p ps => simp [startsWithL] at hk
    | cons p pfx' =>
      cases s with
      | nil => simp [startsWithL] at hs
      | cons c s' =>
        simp only [startsWithL, Bool.and_eq_true] at hs
        have : containsSub pat s' = true := ih pfx' s' hk hs.2
        simp [containsSub, this]

/-- If every position inside `a` fails to start the pattern (even allowing
the match to continue into `b`), and the pattern does not occur in `b`,
then it does not occur in `a ++ b`. -/
theorem not_contains_append (pat : List Char) :
    ∀ (a b : List Char),
      (∀ i, i < a.length → startsWithL pat (a.drop i ++ b) = false) →
      containsSub pat b = false → containsSub pat (a ++ b) = false := by
  intro a
  induction a with
  | nil =>
    intro b _ hb
    simpa using hb
  | cons c a' ih =>
    intro b ha hb
    cases b with
    | nil =>
      have h0 := ha 0 (by simp)
      simp only [List.drop_zero] at h0
      have hrest : containsSub pat (a' ++ []) = false := by
        refine ih [] ?_ ?_
        · intro i hi
          have := ha (i + 1) (by simpa using Nat.succ_lt_succ hi)
          simpa using this
        · cases pat with
          | nil =>
            exfalso
            have := ha 0 (by simp)
            simp [startsWithL] at this
          | cons p ps => rfl
      simp only [containsSub, List.cons_append, Bool.or_eq_false_iff]
      exact ⟨by simpa using h0, by simpa using hrest⟩
    | cons d b' =>
      have h0 := ha 0 (by simp)
      simp only [List.drop_zero] at h0
      have hrest : containsSub pat (a' ++ d :: b') = false := by
        refine ih (d :: b') ?_ hb
        intro i hi
        have := ha (i + 1) (by simpa using Nat.succ_lt_succ hi)
        simpa using this
      simp only [containsSub, List.cons_append, Bool.or_eq_false_iff]
      exact ⟨by simpa using h0, hrest⟩

/-- A mismatch of the pattern against `x` inside the first `x.length`
characters rules out a match of the pattern at the start of `x ++ b`. -/
theorem startsWith_append_false (pat : List Char) :
    ∀ (x b : List Char), startsWithL (pat.take x.length) x = false →
      startsWithL pat (x ++ b) = false := by
  intro x
  induction x generalizing pat with
  | nil =>
    intro b h
    simp [startsWithL, List.take] at h
  | cons c x' ih =>
    intro b h
    cases pat with
    | nil => simp [startsWithL, List.take] at h
    | cons p ps =>
      simp only [List.length_cons, List.take_succ_cons, startsWithL, List.cons_append,
        Bool.and_eq_false_iff] at h ⊢
      rcases h with h | h
      · exact Or.inl h
      · exact Or.inr (ih ps b h)

/-- The reporter's python block is the rewritten code on both branches. -/
theorem summarizer_code_block (code : List (List Char)) (tr : PyJson) :
    (result_summarizer code tr).code_block = rewriteImportLines code := by
  unfold result_summarizer
  split <;> rfl

/-! ## The claims -/

/-- Claim C1: if the Runner writes status FAIL on every iteration, the
retry loop performs exactly 3 Runner-then-Debugger iterations and exits
through the iteration ceiling (`TERMINATED_BY_LIMIT`); it never performs a
4th iteration. -/
theorem c1_loop_ceiling (runner : Nat → RunStatus) (debug : Nat → RetrySt → List Char)
    (st : RetrySt) (h : ∀ i, runner i = RunStatus.FAIL) :
    (runRefinementLoop runner debug st).1 = 3 ∧
    (runRefinementLoop runner debug st).2.1 = LoopExit.TERMINATED_BY_LIMIT := by
  have e : runRefinementLoop runner debug st
      = retryLoopGo runner debug 0 (Nat.succ (Nat.succ (Nat.succ Nat.zero))) st := rfl
  rw [e]
  simp [retryLoopGo, runnerStep, debuggerStep, h]

/-- Witness for C1 at the constantly failing runner. -/
theorem c1_loop_ceiling_witness :
    (runRefinementLoop (fun _ => RunStatus.FAIL) (fun _ _ => []) ⟨[], RunStatus.NOT_RUN⟩).1 = 3 ∧
    (runRefinementLoop (fun _ => RunStatus.FAIL) (fun _ _ => []) ⟨[], RunStatus.NOT_RUN⟩).2.1 =
      LoopExit.TERMINATED_BY_LIMIT :=
  c1_loop_ceiling _ _ _ (fun _ => rfl)

/-- Claim C2: if the Runner writes status PASS on the first iteration, the
retry loop terminates after exactly 1 iteration through the Debugger's
explicit early-exit signal, and the Debugger leaves `generated_test_code`
unchanged in that iteration. -/
theorem c2_early_exit (runner : Nat → RunStatus) (debug : Nat → RetrySt → List Char)
    (st : RetrySt) (h : runner 0 = RunStatus.PASS) :
    runRefinementLoop runner debug st =
      (1, LoopExit.TERMINATED_EARLY, ⟨st.generated_test_code, RunStatus.PASS⟩) ∧
    (runRefinementLoop runner debug st).2.2.generated_test_code = st.generated_test_code := by
  have e : runRefinementLoop runner debug st
      = retryLoopGo runner debug 0 (Nat.succ (Nat.succ (Nat.succ Nat.zero))) st := rfl
  rw [e]
  simp [retryLoopGo, runnerStep, debuggerStep, h]

/-- Witness for C2 at the constantly passing runner. -/
theorem c2_early_exit_witness :
    runRefinementLoop (fun _ => RunStatus.PASS) (fun _ _ => []) ⟨("t".toList), RunStatus.NOT_RUN⟩ =
      (1, LoopExit.TERMINATED_EARLY, ⟨("t".toList), RunStatus.PASS⟩) ∧
    (runRefinementLoop (fun _ => RunStatus.PASS) (fun _ _ => [])
        ⟨("t".toList), RunStatus.NOT_RUN⟩).2.2.generated_test_code = ("t".toList) :=
  c2_early_exit _ _ _ rfl

/-- Claim C3 fails on the code: on the failure path (no usable text)
`initialize_state` returns right after recording `initialization_error`,
so the four documented keys are left absent, not set to their defaults. -/
theorem c3_failure_path_counterexample :
    (initialize_state none).test_results = none ∧
    (initialize_state none).static_analysis_report = none ∧
    (initialize_state none).test_scenarios = none ∧
    (initialize_state none).generated_test_code = none ∧
    (initialize_state none).initialization_error = some ("No input content.".toList) :=
  ⟨rfl, rfl, rfl, rfl, rfl⟩

/-- Claim C3 as amended: whenever usable text is present (the input text
exists and is non-empty), initialization seeds `test_results`,
`static_analysis_report`, `test_scenarios` and `generated_test_code` with
their documented defaults; on the failure path only
`initialization_error` is set and those keys stay absent. -/
theorem c3_defaults_amended (raw : List Char) (h : raw ≠ []) :
    (initialize_state (some raw)).test_results =
      some (PyJson.obj [(("status").toList, PyJson.str (("NOT_RUN").toList))]) ∧
    (initialize_state (some raw)).static_analysis_report = some (PyJson.obj []) ∧
    (initialize_state (some raw)).test_scenarios = some (PyJson.arr []) ∧
    (initialize_state (some raw)).generated_test_code = some (PyJson.str []) := by
  simp only [initialize_state]
  rw [if_neg h]
  exact ⟨rfl, rfl, rfl, rfl⟩

/-- Witness for the amended C3 at a one-character input. -/
theorem c3_defaults_amended_witness :
    (initialize_state (some ("x".toList))).test_results =
      some (PyJson.obj [(("status").toList, PyJson.str (("NOT_RUN").toList))]) ∧
    (initialize_state (some ("x".toList))).static_analysis_report = some (PyJson.obj []) ∧
    (initialize_state (some ("x".toList))).test_scenarios = some (PyJson.arr []) ∧
    (initialize_state (some ("x".toList))).generated_test_code = some (PyJson.str []) :=
  c3_defaults_amended _ (by decide)

/-- Claim C4: the parser is claimed to return a non-empty list or raise
ParseError on every input; on a block in the documented bullet format it
instead raises an uncaught `AttributeError` (`None.strip()`), because the
outcome regex matches via its bare `Expected Outcome` alternative. -/
theorem c4_attribute_error_eval :
    generate_test_scenarios c4input = Except.error PyErr.attributeError := rfl

/-- Claim C5: evaluating the parser on the spec's example input. The two
blocks do parse, but the first captured description is
`"adds two positives\nEXPECTED: returns their sum"` — the primary pattern's
terminator needs a dash bullet, so the capture runs to `$` and swallows the
EXPECTED line — not the claimed `"adds two positives"`. -/
theorem c5_parse_example_eval :
    generate_test_scenarios c5input =
      Except.ok [⟨c5desc1, c5out1⟩, ⟨c5desc2, c5out2⟩] ∧
    c5desc1 ≠ ("adds two positives").toList :=
  ⟨rfl, by decide⟩

/-- Claim C6: the secondary mechanisms are pure fallbacks. The
`Scenario N:` re-split is used exactly when splitting on `'---'` yields a
single block; and inside a block the legacy pattern pair is consulted only
in the else-branch, i.e. whenever the primary pair matched both fields the
result is built from the primary captures. -/
theorem c6_fallback_precedence :
    (∀ t : List Char, 2 ≤ (splitDashes (strip t)).length →
      scenario_blocks t = splitDashes (strip t)) ∧
    (∀ t : List Char, (splitDashes (strip t)).length < 2 →
      scenario_blocks t = resplit t) ∧
    (∀ (b d : List Char) (og : Option (List Char)),
      descV2 b = some d → outV2 b = some og →
      blockExtract b =
        match og with
        | none => Except.error PyErr.attributeError
        | some g =>
          if strip d ≠ [] ∧ strip g ≠ [] then Except.ok (some ⟨strip d, strip g⟩)
          else Except.ok none) := by
  refine ⟨?_, ?_, ?_⟩
  · intro t h
    unfold scenario_blocks
    rw [if_neg (by omega)]
  · intro t h
    unfold scenario_blocks
    rw [if_pos h]
  · intro b d og h1 h2
    unfold blockExtract
    rw [h1, h2]

/-- Witness for C6: the `'---'` example keeps its primary split, a
single-block input goes through the re-split, and a block where the
primary pair matched both fields is settled by the primary captures. -/
theorem c6_fallback_precedence_witness :
    scenario_blocks c5input = splitDashes (strip c5input) ∧
    scenario_blocks c10input = resplit c10input ∧
    blockExtract c10input = Except.error PyErr.attributeError := by
  refine ⟨c6_fallback_precedence.1 c5input (by decide),
    c6_fallback_precedence.2.1 c10input (by decide), ?_⟩
  have h1 : descV2 c10input = some ("d".toList) := by decide
  have h2 : outV2 c10input = some none := by decide
  exact c6_fallback_precedence.2.2 c10input _ _ h1 h2

/-- Claim C7 fails on the code at the empty text: an empty string is falsy
in the initialization guard, so the run takes the failure path —
`source_code` is not set and `initialization_error` is — although the
empty text is not a JSON object containing `'source_code'`. -/
theorem c7_empty_input_counterexample :
    jsonObjWithSourceCode [] = false ∧
    (initialize_state (some [])).source_code = none ∧
    (initialize_state (some [])).language = none ∧
    (initialize_state (some [])).initialization_error = some ("No input content.".toList) :=
  ⟨rfl, rfl, rfl, rfl⟩

/-- Claim C7 as amended: for every non-empty input text that does not
decode to a JSON object containing `'source_code'` — in particular the raw
code `def f(x): return x+1` — initialization stores the literal text as
`source_code`, defaults `language` to `'python'`, and records no error. -/
theorem c7_raw_init_amended (raw : List Char) (hne : raw ≠ [])
    (hnj : jsonObjWithSourceCode raw = false) :
    (initialize_state (some raw)).source_code = some (PyJson.str raw) ∧
    (initialize_state (some raw)).language = some (PyJson.str (("python").toList)) ∧
    (initialize_state (some raw)).initialization_error = none := by
  simp only [initialize_state]
  rw [if_neg hne]
  refine ⟨?_, ?_, ?_⟩ <;>
  · split
    all_goals
      first
      | rfl
      | (rename_i fs heq
         split
         all_goals
           first
           | rfl
           | (rename_i h
              have hf : (fs.any fun p => decide (p.1 = (("source_code").toList))) = false := by
                unfold jsonObjWithSourceCode at hnj
                rw [heq] at hnj
                exact hnj
              rw [hf] at h
              simp at h))

/-- Witness for the amended C7 at the spec's degraded-init example. -/
theorem c7_raw_init_amended_witness :
    (initialize_state (some c7raw)).source_code = some (PyJson.str c7raw) ∧
    (initialize_state (some c7raw)).language = some (PyJson.str (("python").toList)) ∧
    (initialize_state (some c7raw)).initialization_error = none :=
  c7_raw_init_amended c7raw (by decide) rfl

/-- Claim C8: the reporter's terminal output is conditional on the final
status — the rewritten code alone when `test_results.status` is `"PASS"`,
the rewritten code plus the raw results object otherwise. -/
theorem c8_reporter_conditional (code : List (List Char)) (tr : PyJson) :
    (statusStr tr = some (("PASS").toList) →
      result_summarizer code tr = ⟨rewriteImportLines code, none⟩) ∧
    (statusStr tr ≠ some (("PASS").toList) →
      result_summarizer code tr = ⟨rewriteImportLines code, some tr⟩) := by
  constructor
  · intro h
    unfold result_summarizer
    rw [if_pos h]
  · intro h
    unfold result_summarizer
    rw [if_neg h]

/-- Witness for C8 on a passing and a failing results object. -/
theorem c8_reporter_conditional_witness :
    result_summarizer [] trPass = ⟨rewriteImportLines [], none⟩ ∧
    result_summarizer [] trFail = ⟨rewriteImportLines [], some trFail⟩ :=
  ⟨(c8_reporter_conditional [] trPass).1 (by decide),
   (c8_reporter_conditional [] trFail).2 (by decide)⟩

/-- A test code whose `import source_to_test` line the reporter's rewrite
does not touch. -/
def c9code : List (List Char) :=
  [("import source_to_test").toList, ("from source_to_test import Foo").toList]

/-- Claim C9 fails on the modelled reporter: the rewrite only changes
`from source_to_test import …` lines, so an occurrence of
`source_to_test` elsewhere (here a plain `import source_to_test` line)
survives into the output even though the code contains the literal
`from source_to_test import Foo` line. -/
theorem c9_leftover_occurrence_counterexample :
    (("from source_to_test import Foo").toList ∈ c9code) ∧
    (("import source_to_test").toList ∈ (result_summarizer c9code trFail).code_block) ∧
    containsSub srcModName (("import source_to_test").toList) = true := by
  refine ⟨by decide, ?_, by decide⟩
  rw [summarizer_code_block]
  decide

/-- Claim C9 as amended: when every line of the final test code that
mentions `source_to_test` is a `from source_to_test import …` line whose
tail is itself free of the module name, the reporter's output contains
`from sample_code import Foo` (whenever the code contains the
corresponding source line) and retains no occurrence of
`source_to_test`. -/
theorem c9_import_rewrite_amended (code : List (List Char)) (tr : PyJson)
    (hconf : ∀ l ∈ code, containsSub srcModName l = true →
      startsWithL fromSrcImport l = true ∧
      containsSub srcModName (l.drop fromSrcImport.length) = false) :
    (("from source_to_test import Foo").toList ∈ code →
      ("from sample_code import Foo").toList ∈ (result_summarizer code tr).code_block) ∧
    (∀ l ∈ (result_summarizer code tr).code_block, containsSub srcModName l = false) := by
  rw [summarizer_code_block]
  constructor
  · intro hmem
    have : rewriteLine (("from source_to_test import Foo").toList) ∈ rewriteImportLines code :=
      List.mem_map_of_mem rewriteLine hmem
    simpa [show rewriteLine (("from source_to_test import Foo").toList) =
      ("from sample_code import Foo").toList from by decide] using this
  · intro l hl
    rcases List.mem_map.1 hl with ⟨l0, hl0, rfl⟩
    cases hc : containsSub srcModName l0 with
    | false =>
      have hsw : startsWithL fromSrcImport l0 = false := by
        cases hsw : startsWithL fromSrcImport l0 with
        | false => rfl
        | true =>
          have : containsSub srcModName l0 = true :=
            contains_of_startsWith_at srcModName 5 fromSrcImport l0 (by decide) hsw
          rw [this] at hc
          exact absurd hc (by simp)
      simpa [rewriteLine, hsw] using hc
    | true =>
      obtain ⟨hsw, hrest⟩ := hconf l0 hl0 hc
      rw [rewriteLine, if_pos hsw]
      refine not_contains_append srcModName fromSampleImport _ ?_ hrest
      intro i hi
      have hb : fromSampleImport.length = 23 := rfl
      rw [hb] at hi
      have key : startsWithL (srcModName.take (fromSampleImport.drop i).length)
          (fromSampleImport.drop i) = false := by
        interval_cases i <;> decide
      exact startsWith_append_false srcModName (fromSampleImport.drop i) _ key

/-- Witness for the amended C9 on a conforming one-line test code. -/
theorem c9_import_rewrite_amended_witness :
    (("from sample_code import Foo").toList ∈
      (result_summarizer [("from source_to_test import Foo").toList] trFail).code_block) ∧
    (∀ l ∈ (result_summarizer [("from source_to_test import Foo").toList] trFail).code_block,
      containsSub srcModName l = false) := by
  have h := c9_import_rewrite_amended [("from source_to_test import Foo").toList] trFail
    (by decide)
  exact ⟨h.1 (by decide), h.2⟩

/-- Claim C10: on a block containing `Description: d` followed by
`- Expected Outcome: x`, the parser raises an uncaught `AttributeError`
instead of returning a list or raising ParseError — the outcome regex
matches via its bare `Expected Outcome` alternative, leaving group 1 as
`None`, and `.strip()` is then called on `None`. -/
theorem c10_attribute_error :
    generate_test_scenarios c10input = Except.error PyErr.attributeError := rfl

end Testmozart
